import Mathlib

/-!
Verification development for the resume-tailoring pipeline.

The Python sources are shallowly embedded as pure Lean functions:
- `src/lambdas/validate_handler/app.py` (tokenization, keyword coverage,
  entity detection, the validation handler),
- `src/lambdas/generate_handler/app.py` (JSON-fallback behaviour of the
  multi-stage draft generator, skill-list parsing),
- `src/lambdas/workflow_handler/app.py` (job submission),
- `src/cdk/backend_stack.py` (the Step Functions state machine and the two
  terminal DynamoDB updates),
- `src/lambdas/render_handler/app.py` (the minimal DOCX packer, modelled at
  the level of zip archive entries).

Python floats produced by `round(x, 2)` are modelled as exact rationals with
round-half-even at two decimals; `json.loads` is modelled as an abstract
decoder parameter `dec : String → Option Json`; machine I/O (S3, DynamoDB,
Step Functions, Bedrock) is modelled by explicit oracle parameters and by
recording the writes an execution performs.
-/

namespace ResumePipeline

/-! ## Shared string utilities (Python semantics) -/

/-- ASCII alphanumeric test, mirroring the character class `[A-Za-z0-9]`
of the regex in `validate_handler._normalize_tokens`. -/
def isAsciiAlnum (c : Char) : Bool :=
  (decide ('a' ≤ c) && decide (c ≤ 'z')) || (decide ('A' ≤ c) && decide (c ≤ 'Z')) ||
    (decide ('0' ≤ c) && decide (c ≤ '9'))

/-- Accumulator-based scanner returning the maximal runs of alphanumeric
characters in the input, in order.  `acc` holds the current run reversed.
Together with `alnumRuns` this models `re.findall(r"[A-Za-z0-9]+", text)`. -/
def alnumRunsAux : List Char → List Char → List String
  | [], acc => if acc.isEmpty then [] else [String.mk acc.reverse]
  | c :: cs, acc =>
    if isAsciiAlnum c then alnumRunsAux cs (c :: acc)
    else (if acc.isEmpty then [] else [String.mk acc.reverse]) ++ alnumRunsAux cs []

/-- `re.findall(r"[A-Za-z0-9]+", text)`: the maximal alphanumeric runs. -/
def alnumRuns (l : List Char) : List String := alnumRunsAux l []

/-- Python `str.lower`, restricted to ASCII case folding. -/
def pyLower (s : String) : String := String.mk (s.toList.map Char.toLower)

/-- `validate_handler._normalize_tokens`: case-fold, take maximal
alphanumeric runs, keep those of length > 2. -/
def normalize_tokens (text : String) : List String :=
  (alnumRuns ((pyLower text).toList)).filter (fun t => 2 < t.length)

/-- Lexicographic comparison of char lists by code point, as Python compares
strings. -/
def strLeL : List Char → List Char → Bool
  | [], _ => true
  | _ :: _, [] => false
  | a :: as, b :: bs => if a = b then strLeL as bs else decide (a.val < b.val)

/-- Python string `<=` (code-point lexicographic). -/
def strLe (a b : String) : Bool := strLeL a.toList b.toList

/-- Insert into a sorted list, the auxiliary step of `sortStrings`. -/
def insertSorted (x : String) : List String → List String
  | [] => [x]
  | y :: ys => if strLe x y then x :: y :: ys else y :: insertSorted x ys

/-- Python `sorted` on a collection of (distinct) strings: insertion sort by
code-point lexicographic order. -/
def sortStrings (l : List String) : List String := l.foldr insertSorted []

/-! ## Rounding (`round(x, 2)` on a quotient of Nats) -/

/-- Round-half-even of the rational `n / d` to the nearest integer (`d > 0`),
the idealisation of Python `round` on the exact value. -/
def rhe (n d : ℕ) : ℕ :=
  let q := n / d
  let r := n % d
  if 2 * r < d then q
  else if d < 2 * r then q + 1
  else if q % 2 = 0 then q else q + 1

/-- `round(c / max(r, 1), 2)` as an exact rational. -/
def score2 (c r : ℕ) : ℚ := (rhe (100 * c) (max r 1) : ℚ) / 100

/-! ## Keyword coverage (`validate_handler._keyword_coverage`) -/

structure KeywordCoverage where
  score : ℚ
  covered : List String
  missing : List String
deriving DecidableEq

/-- The "required" job-description terms: distinct normalized tokens that
occur at least twice or have length > 6 (the set built from the `Counter`). -/
def requiredKeywords (jd : String) : List String :=
  let toks := normalize_tokens jd
  toks.dedup.filter (fun t => decide (2 ≤ toks.count t) || decide (6 < t.length))

/-- `validate_handler._keyword_coverage`. -/
def keyword_coverage (jd draft_text : String) : KeywordCoverage :=
  let required := requiredKeywords jd
  let draftToks := normalize_tokens draft_text
  let covered := sortStrings (required.filter (fun t => decide (t ∈ draftToks)))
  let missing := sortStrings (required.filter (fun t => decide (t ∉ draftToks)))
  { score := score2 covered.length required.length
    covered := covered
    missing := missing }

/-! ## Validation handler (`validate_handler.handler`) -/

/-- A draft section value: a string or an ordered sequence of strings
(§3 of the design: `sections : mapping section-name → (string | seq of string)`). -/
inductive JVal where
  | s (v : String)
  | l (vs : List String)
deriving DecidableEq

/-- Python truthiness of an optional section value (`sections.get(section)`):
falsy when the key is absent, the string is empty, or the list is empty. -/
def sectionTruthy : Option JVal → Bool
  | none => false
  | some (.s v) => !(v = "")
  | some (.l vs) => !(vs = [])

/-- Dict lookup on a section mapping (insertion-ordered association list). -/
def lookupSection (sections : List (String × JVal)) (name : String) : Option JVal :=
  (sections.find? (fun p => p.1 = name)).map (fun p => p.2)

/-- The entries iterated by `_detect_new_entities` for one section value:
a list value yields its items, anything else is wrapped in a singleton. -/
def entriesOf : JVal → List String
  | .s v => [v]
  | .l vs => vs

/-- One Textract block: only the optional `Text` field is consumed. -/
structure Block where
  text : Option String
deriving DecidableEq

/-- `parsedResume` object: only the optional `Blocks` field is consumed. -/
structure ParsedResume where
  blocks : Option (List Block)
deriving DecidableEq

/-- `validate_handler._extract_entities`: lowered non-empty block texts. -/
def extract_entities (blocks : List Block) : List String :=
  blocks.filterMap (fun b =>
    match b.text with
    | some t => if t = "" then none else some (pyLower t)
    | none => none)

/-- `validate_handler._detect_new_entities`: section entries whose lowered
text is non-empty and not among the source entities, tagged with their
section name, capped at 50. -/
def detect_new_entities (sections : List (String × JVal)) (blocks : List Block) :
    List String :=
  let src := extract_entities blocks
  let introduced := sections.flatMap (fun p =>
    (entriesOf p.2).filterMap (fun entry =>
      let le := pyLower entry
      if le = "" then none
      else if le ∈ src then none
      else some (p.1 ++ ": " ++ entry)))
  introduced.take 50

/-- `validate_handler._required_sections`. -/
def requiredSections : List String :=
  ["Summary", "Skills", "Experience", "Education", "Certifications"]

/-- The draft object consumed by the validator (`event["draft"]`);
fields are optional because the handler supplies defaults via `.get`. -/
structure VDraft where
  draftText : Option String
  sections : Option (List (String × JVal))
deriving DecidableEq

/-- The validation event; every key may be absent. -/
structure VEvent where
  draft : Option VDraft
  parsedResume : Option ParsedResume
  jobDescription : Option String
deriving DecidableEq

inductive ChangeDetail where
  | coverage (c : KeywordCoverage)
  | entities (l : List String)
  | sections (l : List String)
deriving DecidableEq

structure ChangeEntry where
  change : String
  details : ChangeDetail
  rationale : String
deriving DecidableEq

structure ValidationReport where
  status : String
  keywordCoverage : KeywordCoverage
  missingSections : List String
  introducedEntities : List String
  changeLog : List ChangeEntry
deriving DecidableEq

/-- The status policy of `validate_handler.handler`: REVIEW when
`coverage["score"] < 0.6` or sections are missing or entities were
introduced, PASS otherwise. -/
def validationStatus (score : ℚ) (missing introduced : List String) : String :=
  if score < 3/5 ∨ missing ≠ [] ∨ introduced ≠ [] then "REVIEW" else "PASS"

/-- `validate_handler.handler`: the deterministic validation step. -/
def validate_handler (event : VEvent) : ValidationReport :=
  let draft := event.draft.getD ⟨none, none⟩
  let draft_text := draft.draftText.getD ""
  let sections := draft.sections.getD []
  let blocks := (event.parsedResume.getD ⟨none⟩).blocks.getD []
  let jd := event.jobDescription.getD ""
  let coverage := keyword_coverage jd draft_text
  let introduced := detect_new_entities sections blocks
  let missing :=
    sortStrings (requiredSections.filter (fun s => !(sectionTruthy (lookupSection sections s))))
  let status := validationStatus coverage.score missing introduced
  let changeLog :=
    [⟨"keyword_coverage", .coverage coverage,
      "Ensure the tailored resume aligns with employer language."⟩]
    ++ (if introduced ≠ [] then
         [⟨"new_entities_detected", .entities introduced,
           "Flag entries not present in source resume for manual verification."⟩]
        else [])
    ++ (if missing ≠ [] then
         [⟨"sections_missing", .sections missing,
           "All required resume sections must be populated before delivery."⟩]
        else [])
  { status := status
    keywordCoverage := coverage
    missingSections := missing
    introducedEntities := introduced
    changeLog := changeLog }

/-! ## Draft generator (`generate_handler`): JSON-fallback behaviour -/

/-- Minimal JSON values; `json.loads` is modelled as an abstract decoder
`String → Option Json` (none = `json.JSONDecodeError`). -/
inductive Json where
  | str (s : String)
  | arr (a : List Json)
  | obj (o : List (String × Json))

/-- Dict lookup on a JSON object (`d.get(k)`), `none` on non-objects. -/
def jsonGet (j : Json) (k : String) : Option Json :=
  match j with
  | .obj o => (o.find? (fun p => p.1 = k)).map (fun p => p.2)
  | _ => none

/-- `generate_handler._extract_competencies`, after the model call: the parsed
JSON, or the degraded shape with the raw text under the key `raw`. -/
def extract_competencies (dec : String → Option Json) (response : String) : Json :=
  match dec response with
  | some j => j
  | none => Json.obj [("raw", Json.str response)]

/-- `generate_handler.handler` final-assembly parse: the parsed JSON, or the
degraded draft with the raw text as the `Summary` section. -/
def assemble_final (dec : String → Option Json) (final_response : String) : Json :=
  match dec final_response with
  | some j => j
  | none => Json.obj [("Summary", Json.str final_response)]

/-! ## Skill-list parsing (`generate_handler.handler`, line 225) -/

/-- Python whitespace characters stripped by `str.strip()` (ASCII range). -/
def isPyWhitespace (c : Char) : Bool :=
  c = ' ' || c = '\t' || c = '\n' || c = '\r' || c = '\x0b' || c = '\x0c'

/-- Python `str.strip()`. -/
def pyStrip (s : String) : String :=
  String.mk (((s.toList.dropWhile isPyWhitespace).reverse.dropWhile isPyWhitespace).reverse)

/-- Splitter for `str.split(",")`, accumulating the current piece reversed. -/
def splitCommaAux : List Char → List Char → List String
  | [], acc => [String.mk acc.reverse]
  | c :: cs, acc =>
    if c = ',' then String.mk acc.reverse :: splitCommaAux cs []
    else splitCommaAux cs (c :: acc)

/-- Python `s.split(",")`. -/
def pySplitComma (s : String) : List String := splitCommaAux s.toList []

/-- `harmonized_list` from `generate_handler.handler`:
`[skill.strip() for skill in harmonized_skills.split(",") if skill.strip()]`. -/
def harmonized_list (harmonized_skills : String) : List String :=
  ((pySplitComma harmonized_skills).map pyStrip).filter (fun sk => !(sk = ""))

/-! ## Job submission (`workflow_handler.handler`) -/

/-- Python truthiness of an optional string. -/
def pyTruthy : Option String → Bool
  | none => false
  | some s => !(s = "")

/-- Parsed request body for `POST /tailor`; `tenantId` and `resumeKey` are
accessed with `body[...]` (KeyError when absent), the rest with `.get`. -/
structure SubmitBody where
  tenantId : Option String
  resumeKey : Option String
  jobDescriptionKey : Option String
  jobDescription : Option String
  templateKey : Option String
  options : Option Json
  jobId : Option String

/-- Result of `s3.get_object` on the job-description key. -/
inductive S3Result where
  | ok (text : String)
  | noSuchKey
  | err (msg : String)

/-- HTTP response as produced by `_response`; all body values used by the
handler are strings, so the JSON body is an association list of strings. -/
structure HttpResponse where
  statusCode : ℕ
  body : List (String × String)

/-- The DynamoDB item written by `table.put_item` at submission. -/
structure JobRow where
  pk : String
  sk : String
  tenantId : String
  jobId : String
  status : String
  createdAt : String
  resumeKey : String
  jobDescriptionKey : Option String
  templateKey : Option String
  options : Option Json

/-- Observable outcome of one submission call: the HTTP response, the ledger
row written (if any) and the Step Functions execution input (if started). -/
structure SubmitOutcome where
  response : HttpResponse
  putItem : Option JobRow
  executionStarted : Bool

/-- `workflow_handler.handler`.  `s3get` models `s3.get_object` on the
job-description key, `freshId` the generated `uuid4`, `now` the ISO
timestamp, `arn` the execution ARN returned by `start_execution`, and
`body = none` a JSON-decode failure (the 400 message carries exception
detail that is not modelled). -/
def workflow_handler (s3get : String → S3Result) (freshId now arn : String)
    (body : Option SubmitBody) : SubmitOutcome :=
  match body with
  | none => ⟨⟨400, [("message", "Invalid request body")]⟩, none, false⟩
  | some b =>
    match b.tenantId, b.resumeKey with
    | some tenant, some resumeKey =>
      let jobId := if pyTruthy b.jobId then b.jobId.getD "" else freshId
      let jdLoaded : Except HttpResponse (Option String) :=
        if pyTruthy b.jobDescription then .ok b.jobDescription
        else if pyTruthy b.jobDescriptionKey then
          match s3get (b.jobDescriptionKey.getD "") with
          | .ok t => .ok (some t)
          | .noSuchKey => .error ⟨404, [("message", "Job description object not found")]⟩
          | .err m => .error ⟨500, [("message", "Failed to read job description: " ++ m)]⟩
        else .ok none
      match jdLoaded with
      | .error resp => ⟨resp, none, false⟩
      | .ok jdText =>
        if pyTruthy jdText then
          let row : JobRow :=
            { pk := "TENANT#" ++ tenant
              sk := "JOB#" ++ jobId
              tenantId := tenant
              jobId := jobId
              status := "RUNNING"
              createdAt := now
              resumeKey := resumeKey
              jobDescriptionKey := b.jobDescriptionKey
              templateKey := b.templateKey
              options := b.options }
          ⟨⟨202, [("jobId", jobId), ("executionArn", arn)]⟩, some row, true⟩
        else
          ⟨⟨400, [("message", "Job description text is required")]⟩, none, false⟩
    | _, _ => ⟨⟨400, [("message", "Invalid request body")]⟩, none, false⟩

/-! ## State machine (`backend_stack.py`): terminal updates and execution -/

/-- The DynamoDB ledger attributes the two terminal updates touch.
`initialJobItem` is the row as `workflow_handler` creates it (no result
attributes, no error attribute, status RUNNING). -/
structure LedgerItem where
  status : String
  docxKey : Option String
  pdfKey : Option String
  completedAt : Option String
  validationReport : Option String
  error : Option String
deriving DecidableEq

def initialJobItem : LedgerItem :=
  { status := "RUNNING", docxKey := none, pdfKey := none, completedAt := none
    validationReport := none, error := none }

/-- The artifact keys produced by the render step and consumed by
`PersistJobMetadata`. -/
structure Artifacts where
  docxKey : String
  pdfKey : String
  completedAt : String
deriving DecidableEq

/-- `PersistJobMetadata` (`store_task`): one `UpdateItem` setting status
COMPLETED and the result fields (docxKey, pdfKey, completedAt,
validationReport) — it never touches `error`. -/
def storeTaskUpdate (a : Artifacts) (report : String) (item : LedgerItem) : LedgerItem :=
  { item with
    status := "COMPLETED"
    docxKey := some a.docxKey
    pdfKey := some a.pdfKey
    completedAt := some a.completedAt
    validationReport := some report }

/-- `MarkJobFailed` (`failure_update`): one `UpdateItem` setting status
FAILED and the serialized `error` — it never touches the result fields. -/
def failureUpdate (err : String) (item : LedgerItem) : LedgerItem :=
  { item with status := "FAILED", error := some err }

/-- The tasks of the `ResumeTailorStateMachine`, in the order the chain wires
them; `markFailed` is the `MarkJobFailed` update state. -/
inductive Task where
  | parse
  | comprehend
  | generate
  | validate
  | render
  | store
  | markFailed
deriving DecidableEq

/-- One state-machine execution observed through its ledger writes and the
sequence of states it entered. -/
structure Execution where
  ledger : LedgerItem
  trace : List Task

/-- The chain from `GenerateDraft` onward: each of generate/validate/render/
store carries `add_catch(failure_update)`, so the first failing task routes
to `MarkJobFailed` and the workflow fails; otherwise `PersistJobMetadata`
writes the COMPLETED result. -/
def tailFromGenerate (fails : Task → Bool) (a : Artifacts) (report err : String)
    (init : LedgerItem) (pre : List Task) : Execution :=
  if fails .generate then ⟨failureUpdate err init, pre ++ [.generate, .markFailed]⟩
  else if fails .validate then
    ⟨failureUpdate err init, pre ++ [.generate, .validate, .markFailed]⟩
  else if fails .render then
    ⟨failureUpdate err init, pre ++ [.generate, .validate, .render, .markFailed]⟩
  else if fails .store then
    ⟨failureUpdate err init, pre ++ [.generate, .validate, .render, .store, .markFailed]⟩
  else
    ⟨storeTaskUpdate a report init, pre ++ [.generate, .validate, .render, .store]⟩

/-- The whole state machine: `ParseResume` (with catch), then the
`RunComprehend` choice on `options.runComprehend == true`.  `DetectPII` has
NO catch in `backend_stack.py`, so when it raises the execution terminates
with no further state and no ledger write. -/
def runPipeline (runComprehend : Bool) (fails : Task → Bool) (a : Artifacts)
    (report err : String) (init : LedgerItem) : Execution :=
  if fails .parse then ⟨failureUpdate err init, [.parse, .markFailed]⟩
  else if runComprehend then
    if fails .comprehend then ⟨init, [.parse, .comprehend]⟩
    else tailFromGenerate fails a report err init [.parse, .comprehend]
  else tailFromGenerate fails a report err init [.parse]

/-- The result attributes of §3: a terminal row "has a result" when any of
docxKey / pdfKey / validationReport is set. -/
def hasResult (i : LedgerItem) : Prop :=
  i.docxKey ≠ none ∨ i.pdfKey ≠ none ∨ i.validationReport ≠ none

def hasError (i : LedgerItem) : Prop := i.error ≠ none

def isTerminal (i : LedgerItem) : Prop :=
  i.status = "COMPLETED" ∨ i.status = "FAILED"

instance (i : LedgerItem) : Decidable (hasResult i) := by
  unfold hasResult; infer_instance

instance (i : LedgerItem) : Decidable (hasError i) := by
  unfold hasError; infer_instance

instance (i : LedgerItem) : Decidable (isTerminal i) := by
  unfold isTerminal; infer_instance

/-! ## Renderer (`render_handler.build_docx_bytes`)

The DOCX packer is modelled at the level of the zip archive's logical
entries.  `zipfile.ZipFile.writestr(name, data)` constructs each entry's
`ZipInfo` with `date_time=time.localtime(time.time())[0:6]`, and the
archive's local file header serializes that tuple in MS-DOS format
(CPython `zipfile.py`): `dosdate = (dt[0] - 1980) << 9 | dt[1] << 5 |
dt[2]` and `dostime = dt[3] << 11 | dt[4] << 5 | (dt[5] // 2)` — note the
2-second resolution of the seconds field.  Archives whose entry lists
differ (in any field, including the encoded date/time words) serialize to
different bytes, while DEFLATE itself is deterministic for equal inputs;
two renders within the same 2-second slot are byte-identical. -/

/-- The `(year, month, day, hour, minute, second)` tuple
`time.localtime(time.time())[0:6]` stamped by `zipfile`. -/
structure DateTime6 where
  year : ℕ
  month : ℕ
  day : ℕ
  hour : ℕ
  minute : ℕ
  second : ℕ
deriving DecidableEq

/-- The 16-bit MS-DOS date word `(dt[0] - 1980) << 9 | dt[1] << 5 | dt[2]`
written into each zip header (`struct.pack('<H', ...)` requires the value
to fit 16 bits, which holds for real `localtime` values up to 2107). -/
def dosDateOf (t : DateTime6) : ℕ :=
  (t.year - 1980) <<< 9 ||| t.month <<< 5 ||| t.day

/-- The 16-bit MS-DOS time word `dt[3] << 11 | dt[4] << 5 | (dt[5] // 2)`
written into each zip header: seconds are stored at 2-second resolution. -/
def dosTimeOf (t : DateTime6) : ℕ :=
  t.hour <<< 11 ||| t.minute <<< 5 ||| t.second / 2

/-- One archive member: name, the DOS-encoded date and time words embedded
in its headers, and the uncompressed content. -/
structure ZipEntry where
  name : String
  dosDate : ℕ
  dosTime : ℕ
  content : String
deriving DecidableEq

/-- Sequential `.replace("&","&amp;").replace("<","&lt;").replace(">","&gt;")`
(equivalent to this character-wise map, since the replacements introduce no
further `<`, `>`, or reprocessed `&`). -/
def xmlEscapeChar (c : Char) : String :=
  if c = '&' then "&amp;"
  else if c = '<' then "&lt;"
  else if c = '>' then "&gt;"
  else String.singleton c

def xmlEscape (s : String) : String := String.join (s.toList.map xmlEscapeChar)

/-- `para(text)` from `build_docx_bytes`. -/
def para (text : String) : String :=
  "<w:p><w:r><w:t>" ++ xmlEscape text ++ "</w:t></w:r></w:p>"

/-- Python `str.strip(chars)` with an explicit character set. -/
def pyStripChars (chars : List Char) (s : String) : String :=
  String.mk (((s.toList.dropWhile (fun c => decide (c ∈ chars))).reverse.dropWhile
    (fun c => decide (c ∈ chars))).reverse)

/-- The characters of the literal `" â€”"` passed to `.strip` (the source
file's mojibake em-dash). -/
def dashStripSet : List Char := [' ', 'â', '€', '”']

structure RHeader where
  name : Option String
  title : Option String
  contact : Option String
deriving DecidableEq

structure RExp where
  title : Option String
  company : Option String
  startDate : Option String
  endDate : Option String
  bullets : Option (List String)
deriving DecidableEq

structure REdu where
  degree : Option String
  school : Option String
  year : Option String
deriving DecidableEq

/-- The resume JSON consumed by `build_docx_bytes` (fields via `.get` with
defaults). -/
structure ResumeData where
  header : Option RHeader
  summary : Option String
  skills : Option (List String)
  experience : Option (List RExp)
  education : Option (List REdu)
deriving DecidableEq

/-- The paragraph lines assembled by `build_docx_bytes`. -/
def buildLines (d : ResumeData) : List String :=
  let h := d.header.getD ⟨none, none, none⟩
  let name := h.name.getD ""
  let title := h.title.getD ""
  let contact := h.contact.getD ""
  (if name ≠ "" ∨ title ≠ "" then
    [para (pyStripChars dashStripSet (name ++ " â€” " ++ title))]
   else [])
  ++ (if contact ≠ "" then [para contact] else [])
  ++ (if pyTruthy d.summary then [para "", para (d.summary.getD "")] else [])
  ++ (match d.skills with
      | some sk =>
        if sk ≠ [] then [para "", para ("Skills: " ++ String.intercalate ", " sk)] else []
      | none => [])
  ++ (d.experience.getD []).flatMap (fun e =>
       [para "",
        para ((e.title.getD "") ++ " â€” " ++ (e.company.getD "") ++ " (" ++
          (e.startDate.getD "") ++ " - " ++ (e.endDate.getD "") ++ ")")]
       ++ (e.bullets.getD []).map (fun b => para ("â€¢ " ++ b)))
  ++ (d.education.getD []).flatMap (fun ed =>
       [para "",
        para ((ed.degree.getD "") ++ " â€” " ++ (ed.school.getD "") ++ " (" ++
          (ed.year.getD "") ++ ")")])

/-- `word/document.xml` as assembled by `build_docx_bytes`. -/
def document_xml (d : ResumeData) : String :=
  "<?xml version=\"1.0\" encoding=\"UTF-8\" standalone=\"yes\"?>" ++
  "<w:document xmlns:w=\"http://schemas.openxmlformats.org/wordprocessingml/2006/main\">" ++
  String.join (buildLines d) ++ "</w:document>"

def contentTypesXml : String :=
  "<?xml version=\"1.0\" encoding=\"UTF-8\" standalone=\"yes\"?>" ++
  "<Types xmlns=\"http://schemas.openxmlformats.org/package/2006/content-types\">" ++
  "<Default Extension=\"rels\" ContentType=\"application/vnd.openxmlformats-package.relationships+xml\"/>" ++
  "<Default Extension=\"xml\" ContentType=\"application/xml\"/>" ++
  "<Override PartName=\"/word/document.xml\" ContentType=\"application/vnd.openxmlformats-officedocument.wordprocessingml.document.main+xml\"/>" ++
  "</Types>"

def relsXml : String :=
  "<?xml version=\"1.0\" encoding=\"UTF-8\" standalone=\"yes\"?>" ++
  "<Relationships xmlns=\"http://schemas.openxmlformats.org/package/2006/relationships\"></Relationships>"

/-- `build_docx_bytes` as the list of archive entries it writes; `now` is
the `time.localtime` tuple whose DOS encoding `zipfile` stamps into every
entry's headers. -/
def build_docx_entries (d : ResumeData) (now : DateTime6) : List ZipEntry :=
  [⟨"[Content_Types].xml", dosDateOf now, dosTimeOf now, contentTypesXml⟩,
   ⟨"_rels/.rels", dosDateOf now, dosTimeOf now, relsXml⟩,
   ⟨"word/document.xml", dosDateOf now, dosTimeOf now, document_xml d⟩]

/-- A small concrete draft used to exhibit the renderer's clock dependence. -/
def sampleResume : ResumeData :=
  { header := some ⟨some "Jane Roe", some "Engineer", some "jane at example dot com"⟩
    summary := some "Builds reliable systems."
    skills := some ["Python", "AWS"]
    experience := some [⟨some "Engineer", some "Acme", some "2020", some "2024",
      some ["Shipped the resume pipeline."]⟩]
    education := some [⟨some "BSc", some "State University", some "2016"⟩] }

/-! ## Helper lemmas -/

theorem rhe_le_div_succ (n d : ℕ) : rhe n d ≤ n / d + 1 := by
  simp only [rhe]
  split_ifs <;> omega

theorem div_le_rhe (n d : ℕ) : n / d ≤ rhe n d := by
  simp only [rhe]
  split_ifs <;> omega

/-- Round-half-even is monotone in the numerator. -/
theorem rhe_mono {n m d : ℕ} (h : n ≤ m) : rhe n d ≤ rhe m d := by
  rcases Nat.lt_or_ge (n / d) (m / d) with hlt | hge
  · calc rhe n d ≤ n / d + 1 := rhe_le_div_succ n d
      _ ≤ m / d := hlt
      _ ≤ rhe m d := div_le_rhe m d
  · have heq : n / d = m / d := le_antisymm (Nat.div_le_div_right h) hge
    have hr : n % d ≤ m % d := by
      have e1 := Nat.div_add_mod n d
      have e2 := Nat.div_add_mod m d
      rw [heq] at e1
      omega
    simp only [rhe, heq]
    split_ifs <;> omega

theorem score2_mono {c1 c2 r : ℕ} (h : c1 ≤ c2) : score2 c1 r ≤ score2 c2 r := by
  have hr := rhe_mono (d := max r 1) (Nat.mul_le_mul_left 100 h)
  simp only [score2]
  rw [div_le_div_iff_of_pos_right]
  · exact_mod_cast hr
  · norm_num

/-- Bridge between the rational threshold test and Nat arithmetic. -/
theorem score2_lt_iff (c r : ℕ) : score2 c r < 3/5 ↔ rhe (100 * c) (max r 1) < 60 := by
  simp only [score2]
  rw [div_lt_iff₀ (by norm_num : (0:ℚ) < 100)]
  norm_num

theorem insertSorted_perm (x : String) (l : List String) :
    (insertSorted x l).Perm (x :: l) := by
  induction l with
  | nil => simp [insertSorted]
  | cons y ys ih =>
    simp only [insertSorted]
    split_ifs
    · exact List.Perm.refl _
    · exact ((ih.cons y).trans (List.Perm.swap x y ys))

theorem sortStrings_perm (l : List String) : (sortStrings l).Perm l := by
  induction l with
  | nil => simp [sortStrings]
  | cons x xs ih =>
    simp only [sortStrings, List.foldr] at ih ⊢
    exact (insertSorted_perm x _).trans (ih.cons x)

theorem mem_sortStrings {a : String} {l : List String} : a ∈ sortStrings l ↔ a ∈ l :=
  (sortStrings_perm l).mem_iff

theorem length_sortStrings (l : List String) : (sortStrings l).length = l.length :=
  (sortStrings_perm l).length_eq

theorem nodup_sortStrings {l : List String} (h : l.Nodup) : (sortStrings l).Nodup :=
  ((sortStrings_perm l).nodup_iff).mpr h

theorem sortStrings_ne_nil_iff {l : List String} : sortStrings l ≠ [] ↔ l ≠ [] := by
  constructor
  · intro h hl
    exact h (by simp [hl, sortStrings])
  · intro h hs
    rcases List.exists_mem_of_ne_nil l h with ⟨a, ha⟩
    exact (List.not_mem_nil a) (hs ▸ mem_sortStrings.mpr ha)

theorem validationStatus_eq_review_iff (score : ℚ) (missing introduced : List String) :
    validationStatus score missing introduced = "REVIEW" ↔
      (score < 3/5 ∨ missing ≠ [] ∨ introduced ≠ []) := by
  unfold validationStatus
  split_ifs with h
  · simp [h]
  · simp only [h, iff_false]
    decide

theorem validationStatus_cases (score : ℚ) (missing introduced : List String) :
    validationStatus score missing introduced = "REVIEW" ∨
      validationStatus score missing introduced = "PASS" := by
  unfold validationStatus
  split_ifs <;> simp

theorem length_filter_mono {α : Type} (l : List α) (p q : α → Bool)
    (h : ∀ a ∈ l, p a = true → q a = true) :
    (l.filter p).length ≤ (l.filter q).length := by
  induction l with
  | nil => simp
  | cons x xs ih =>
    have hx := h x (List.mem_cons_self x xs)
    have ih' := ih (fun a ha => h a (List.mem_cons_of_mem x ha))
    simp only [List.filter]
    cases hp : p x with
    | true => rw [hx hp]; simpa using ih'
    | false => cases hq : q x <;> simp <;> omega

/-! ## Claim theorems -/

/-- Claim C2: for every job-description string and draft-text string, the
validator's keyword coverage is computed as described by the spec: tokens
are maximal alphanumeric runs of length > 2, case-folded; the required set
is the job-description tokens occurring at least 2 times or having length
> 6; covered and missing are exactly the required tokens that do and do not
occur among the draft's tokens (each without duplicates); and
score = |covered| / max(|required|, 1), rounded to 2 decimals. -/
theorem C2_keyword_coverage_spec (jd draft : String) :
    (∀ t ∈ normalize_tokens jd, 2 < t.length) ∧
    (∀ t, t ∈ requiredKeywords jd ↔
      t ∈ normalize_tokens jd ∧
        (2 ≤ (normalize_tokens jd).count t ∨ 6 < t.length)) ∧
    (requiredKeywords jd).Nodup ∧
    (∀ t, t ∈ (keyword_coverage jd draft).covered ↔
      t ∈ requiredKeywords jd ∧ t ∈ normalize_tokens draft) ∧
    (∀ t, t ∈ (keyword_coverage jd draft).missing ↔
      t ∈ requiredKeywords jd ∧ t ∉ normalize_tokens draft) ∧
    (keyword_coverage jd draft).covered.Nodup ∧
    (keyword_coverage jd draft).missing.Nodup ∧
    (keyword_coverage jd draft).score =
      (rhe (100 * (keyword_coverage jd draft).covered.length)
        (max (requiredKeywords jd).length 1) : ℚ) / 100 := by
  have hnodup : (requiredKeywords jd).Nodup :=
    ((normalize_tokens jd).nodup_dedup).filter _
  refine ⟨?_, ?_, hnodup, ?_, ?_, ?_, ?_, ?_⟩
  · intro t ht
    simp only [normalize_tokens, List.mem_filter, decide_eq_true_eq] at ht
    exact ht.2
  · intro t
    simp [requiredKeywords, List.mem_filter, List.mem_dedup]
  · intro t
    simp [keyword_coverage, mem_sortStrings, List.mem_filter]
  · intro t
    simp [keyword_coverage, mem_sortStrings, List.mem_filter]
  · exact nodup_sortStrings (hnodup.filter _)
  · exact nodup_sortStrings (hnodup.filter _)
  · rfl

/-- Witness for C2 at a concrete job description: the long token
"certified" (length > 6, single occurrence) is required, and the token
"the" (short, single occurrence) is not. -/
theorem C2_keyword_coverage_spec_witness :
    "certified" ∈ requiredKeywords "the certified engineer" ∧
    "the" ∉ requiredKeywords "the certified engineer" :=
  ⟨((C2_keyword_coverage_spec "the certified engineer" "").2.1 "certified").mpr
      ⟨by decide, Or.inr (by decide)⟩,
   fun h => by
    have := (((C2_keyword_coverage_spec "the certified engineer" "").2.1 "the").mp h).2
    revert this
    decide⟩

/-- Claim C10: the keyword coverage score is monotonic non-decreasing in the
draft's token set: for every job description and every pair of drafts where
the second's token list contains every token of the first, the second's
score is at least the first's.  (Re-scoring an unchanged draft yields the
same score by the purity of the embedded function.) -/
theorem C10_coverage_monotone (jd d1 d2 : String)
    (hsub : ∀ t ∈ normalize_tokens d1, t ∈ normalize_tokens d2) :
    (keyword_coverage jd d1).score ≤ (keyword_coverage jd d2).score := by
  have hlen :
      ((requiredKeywords jd).filter (fun t => decide (t ∈ normalize_tokens d1))).length ≤
      ((requiredKeywords jd).filter (fun t => decide (t ∈ normalize_tokens d2))).length := by
    refine length_filter_mono _ _ _ (fun a _ ha => ?_)
    simp only [decide_eq_true_eq] at ha ⊢
    exact hsub a ha
  have e1 : (keyword_coverage jd d1).score =
      score2 ((requiredKeywords jd).filter
        (fun t => decide (t ∈ normalize_tokens d1))).length (requiredKeywords jd).length := by
    simp [keyword_coverage, length_sortStrings]
  have e2 : (keyword_coverage jd d2).score =
      score2 ((requiredKeywords jd).filter
        (fun t => decide (t ∈ normalize_tokens d2))).length (requiredKeywords jd).length := by
    simp [keyword_coverage, length_sortStrings]
  rw [e1, e2]
  exact score2_mono hlen

/-- Witness for C10 at concrete inputs: enlarging the draft from "python"
to "python lambda" cannot lower the score. -/
theorem C10_coverage_monotone_witness :
    (keyword_coverage "python python lambda lambda" "python").score ≤
      (keyword_coverage "python python lambda lambda" "python lambda").score :=
  C10_coverage_monotone "python python lambda lambda" "python" "python lambda" (by decide)

/-- Claim C3: for every validator input, the returned report's status is
REVIEW if the coverage score is < 0.6, or any required section (Summary,
Skills, Experience, Education, Certifications) is absent or empty, or any
introduced entity was flagged; otherwise status is PASS.  In particular, a
draft where exactly the "Certifications" section is absent or empty yields
status = REVIEW with missingSections = ["Certifications"]. -/
theorem C3_validate_status_policy (e : VEvent) :
    ((validate_handler e).status = "REVIEW" ∨ (validate_handler e).status = "PASS") ∧
    ((validate_handler e).status = "REVIEW" ↔
      ((validate_handler e).keywordCoverage.score < 3/5 ∨
       (∃ s ∈ requiredSections,
         sectionTruthy (lookupSection ((e.draft.getD ⟨none, none⟩).sections.getD []) s)
           = false) ∨
       (validate_handler e).introducedEntities ≠ [])) ∧
    ((sectionTruthy (lookupSection ((e.draft.getD ⟨none, none⟩).sections.getD [])
        "Certifications") = false ∧
      (∀ s ∈ requiredSections, s ≠ "Certifications" →
        sectionTruthy (lookupSection ((e.draft.getD ⟨none, none⟩).sections.getD []) s)
          = true)) →
      (validate_handler e).status = "REVIEW" ∧
        (validate_handler e).missingSections = ["Certifications"]) := by
  have hstat : (validate_handler e).status =
      validationStatus (validate_handler e).keywordCoverage.score
        (validate_handler e).missingSections (validate_handler e).introducedEntities := rfl
  have hmissdef : (validate_handler e).missingSections =
      sortStrings (requiredSections.filter (fun s =>
        !(sectionTruthy (lookupSection ((e.draft.getD ⟨none, none⟩).sections.getD []) s)))) :=
    rfl
  have hmiss : (validate_handler e).missingSections ≠ [] ↔
      ∃ s ∈ requiredSections,
        sectionTruthy (lookupSection ((e.draft.getD ⟨none, none⟩).sections.getD []) s)
          = false := by
    rw [hmissdef, sortStrings_ne_nil_iff, Ne, List.filter_eq_nil_iff]
    push_neg
    simp
  refine ⟨?_, ?_, ?_⟩
  · rw [hstat]
    exact validationStatus_cases _ _ _
  · rw [hstat, validationStatus_eq_review_iff]
    rw [hmiss]
  · rintro ⟨hc, hrest⟩
    have h1 := hrest "Summary" (by simp [requiredSections]) (by decide)
    have h2 := hrest "Skills" (by simp [requiredSections]) (by decide)
    have h3 := hrest "Experience" (by simp [requiredSections]) (by decide)
    have h4 := hrest "Education" (by simp [requiredSections]) (by decide)
    have hfil : requiredSections.filter (fun s =>
        !(sectionTruthy (lookupSection ((e.draft.getD ⟨none, none⟩).sections.getD []) s)))
          = ["Certifications"] := by
      simp [requiredSections, List.filter, h1, h2, h3, h4, hc]
    have hm : (validate_handler e).missingSections = ["Certifications"] := by
      rw [hmissdef, hfil]
      rfl
    refine ⟨?_, hm⟩
    rw [hstat, validationStatus_eq_review_iff]
    right; left
    rw [hm]
    simp

/-- Witness for C3: a concrete draft with all required sections populated
except "Certifications" is flagged REVIEW with exactly that section listed
as missing. -/
theorem C3_validate_status_policy_witness :
    (validate_handler ⟨some ⟨some "", some
        [("Summary", .s "ok"), ("Skills", .l ["a"]), ("Experience", .s "x"),
         ("Education", .s "y")]⟩, none, none⟩).status = "REVIEW" ∧
    (validate_handler ⟨some ⟨some "", some
        [("Summary", .s "ok"), ("Skills", .l ["a"]), ("Experience", .s "x"),
         ("Education", .s "y")]⟩, none, none⟩).missingSections = ["Certifications"] :=
  (C3_validate_status_policy _).2.2 ⟨by decide, by decide⟩

/-- Claim C6: for every validation input representable in the handler's data
model — including inputs where the draft, sections, parsedResume or
jobDescription keys are absent — the VALIDATE step always succeeds and
returns a report whose status is PASS or REVIEW; weak coverage produces
status REVIEW rather than an exception; and an input with every key absent
is processed identically to one with explicit empty defaults (the handler
substitutes defaults instead of failing).  (Structurally malformed inputs —
values of the wrong dynamic type — are outside the typed embedding; no
well-typed input can make the step fail.) -/
theorem C6_validate_total (e : VEvent) :
    ((validate_handler e).status = "PASS" ∨ (validate_handler e).status = "REVIEW") ∧
    ((validate_handler e).keywordCoverage.score < 3/5 →
      (validate_handler e).status = "REVIEW") ∧
    validate_handler ⟨none, none, none⟩ =
      validate_handler ⟨some ⟨some "", some []⟩, some ⟨some []⟩, some ""⟩ := by
  have hstat : (validate_handler e).status =
      validationStatus (validate_handler e).keywordCoverage.score
        (validate_handler e).missingSections (validate_handler e).introducedEntities := rfl
  refine ⟨?_, ?_, rfl⟩
  · rw [hstat]
    exact (validationStatus_cases _ _ _).symm
  · intro hlow
    rw [hstat, validationStatus_eq_review_iff]
    exact Or.inl hlow

/-- Witness for C6: a job description whose only required keyword is missing
from the (empty) draft gives coverage 0 < 0.6, and the step returns REVIEW
instead of failing. -/
theorem C6_validate_total_witness :
    (validate_handler ⟨none, none, some "alpha alpha"⟩).status = "REVIEW" :=
  (C6_validate_total ⟨none, none, some "alpha alpha"⟩).2.1
    (by
      show score2 0 1 < 3/5
      exact (score2_lt_iff 0 1).mpr (by decide))

/-- Claim C4: a single stage's malformed (non-JSON) output never fails the
draft generation: when competency extraction returns non-parseable JSON the
stage yields the object with the raw text under key "raw" instead of
raising (and the parsed JSON when parsing succeeds), and when final
assembly returns non-parseable JSON the generator synthesizes the object
with the raw text as the "Summary" section instead of aborting.  Both
embedded stages are total functions: no model response can make them
fail. -/
theorem C4_generate_degrades_gracefully (dec : String → Option Json)
    (resp finalResp : String) :
    (dec resp = none →
      extract_competencies dec resp = Json.obj [("raw", Json.str resp)]) ∧
    (∀ j, dec resp = some j → extract_competencies dec resp = j) ∧
    (dec finalResp = none →
      assemble_final dec finalResp = Json.obj [("Summary", Json.str finalResp)]) ∧
    (dec finalResp = none →
      jsonGet (assemble_final dec finalResp) "Summary" = some (Json.str finalResp)) := by
  refine ⟨?_, ?_, ?_, ?_⟩
  · intro h
    simp [extract_competencies, h]
  · intro j h
    simp [extract_competencies, h]
  · intro h
    simp [assemble_final, h]
  · intro h
    simp [assemble_final, h, jsonGet, List.find?]

/-- Witness for C4 with a decoder that rejects everything (all-malformed
model output): both stages still produce their degraded values. -/
theorem C4_generate_degrades_gracefully_witness :
    extract_competencies (fun _ => none) "not json"
      = Json.obj [("raw", Json.str "not json")] ∧
    assemble_final (fun _ => none) "still not json"
      = Json.obj [("Summary", Json.str "still not json")] :=
  ⟨(C4_generate_degrades_gracefully (fun _ => none) "not json" "still not json").1 rfl,
   (C4_generate_degrades_gracefully (fun _ => none) "not json" "still not json").2.2.1 rfl⟩

/-- Counterexample to claim C8 as stated: the skills carried in the draft
are NOT deduplicated — the model output "Python, Python" is parsed to the
list ["Python", "Python"], which contains a duplicate. -/
theorem C8_skills_not_dedup_counterexample :
    harmonized_list "Python, Python" = ["Python", "Python"] ∧
    ¬ (harmonized_list "Python, Python").Nodup := by
  constructor
  · decide
  · decide

/-- Claim C8 (amended): the skills carried in the resulting draft are the
comma-delimited items of the harmonization output with whitespace trimmed
and empty entries dropped, duplicates preserved: membership in the parsed
list holds exactly for the non-empty trimmed split items.  (Deduplication
is requested of the model in the prompt but not enforced by the parse.) -/
theorem C8_skills_parse_amended (hs : String) :
    ∀ sk, sk ∈ harmonized_list hs ↔
      (sk ∈ (pySplitComma hs).map pyStrip ∧ sk ≠ "") := by
  intro sk
  simp [harmonized_list, List.mem_filter]

/-- Claim C1: for every job (one state-machine execution over the ledger
row created at submission), once its status is terminal (COMPLETED or
FAILED), exactly one of the result attributes (docxKey/pdfKey/
validationReport) and the error attribute is non-empty, never both; the
COMPLETED-persisting update writes only result fields (leaving `error`
unchanged) and the FAILED-marking update writes only the error field
(leaving all result fields unchanged). -/
theorem C1_terminal_result_xor_error (runC : Bool) (fails : Task → Bool)
    (a : Artifacts) (report err : String) :
    (isTerminal (runPipeline runC fails a report err initialJobItem).ledger →
      ((hasResult (runPipeline runC fails a report err initialJobItem).ledger ∧
        ¬ hasError (runPipeline runC fails a report err initialJobItem).ledger) ∨
       (hasError (runPipeline runC fails a report err initialJobItem).ledger ∧
        ¬ hasResult (runPipeline runC fails a report err initialJobItem).ledger))) ∧
    (∀ item, (storeTaskUpdate a report item).error = item.error) ∧
    (∀ item e', (failureUpdate e' item).docxKey = item.docxKey ∧
      (failureUpdate e' item).pdfKey = item.pdfKey ∧
      (failureUpdate e' item).completedAt = item.completedAt ∧
      (failureUpdate e' item).validationReport = item.validationReport) := by
  refine ⟨?_, fun item => rfl, fun item e' => ⟨rfl, rfl, rfl, rfl⟩⟩
  intro hterm
  simp only [runPipeline, tailFromGenerate] at hterm ⊢
  split_ifs at hterm ⊢ <;>
    simp_all [isTerminal, hasResult, hasError, storeTaskUpdate, failureUpdate,
      initialJobItem]

/-- Witness for C1: with every task succeeding, the run ends terminal
(COMPLETED) and the exactly-one-of-result/error property holds there. -/
theorem C1_terminal_result_xor_error_witness :
    isTerminal (runPipeline false (fun _ => false) ⟨"d.docx", "d.pdf", "t0"⟩
      "rep" "err" initialJobItem).ledger ∧
    ((hasResult (runPipeline false (fun _ => false) ⟨"d.docx", "d.pdf", "t0"⟩
        "rep" "err" initialJobItem).ledger ∧
      ¬ hasError (runPipeline false (fun _ => false) ⟨"d.docx", "d.pdf", "t0"⟩
        "rep" "err" initialJobItem).ledger) ∨
     (hasError (runPipeline false (fun _ => false) ⟨"d.docx", "d.pdf", "t0"⟩
        "rep" "err" initialJobItem).ledger ∧
      ¬ hasResult (runPipeline false (fun _ => false) ⟨"d.docx", "d.pdf", "t0"⟩
        "rep" "err" initialJobItem).ledger)) :=
  ⟨by decide,
   (C1_terminal_result_xor_error false (fun _ => false) ⟨"d.docx", "d.pdf", "t0"⟩
      "rep" "err").1 (by decide)⟩

/-- Claim C5: for every execution, if options.runComprehend == true the PII
screener runs before GENERATE, and a screener failure does not fail the job
(the ledger never reads FAILED because of it — the execution stops with the
row untouched, still RUNNING); if options.runComprehend is not true the
screener is never invoked and control passes from PARSE directly to
GENERATE. -/
theorem C5_comprehend_branch (fails : Task → Bool) (a : Artifacts)
    (report err : String) :
    (fails .parse = false → fails .comprehend = false →
      ∃ rest, (runPipeline true fails a report err initialJobItem).trace =
        .parse :: .comprehend :: .generate :: rest) ∧
    (fails .parse = false → fails .comprehend = true →
      (runPipeline true fails a report err initialJobItem).trace =
          [.parse, .comprehend] ∧
        (runPipeline true fails a report err initialJobItem).ledger =
          initialJobItem ∧
        (runPipeline true fails a report err initialJobItem).ledger.status ≠
          "FAILED") ∧
    (Task.comprehend ∉ (runPipeline false fails a report err initialJobItem).trace) ∧
    (fails .parse = false →
      ∃ rest, (runPipeline false fails a report err initialJobItem).trace =
        .parse :: .generate :: rest) := by
  refine ⟨?_, ?_, ?_, ?_⟩
  · intro hp hc
    simp [runPipeline, tailFromGenerate, hp, hc]
    split_ifs <;> exact ⟨_, rfl⟩
  · intro hp hc
    simp only [runPipeline, tailFromGenerate, hp, hc]
    refine ⟨?_, ?_, ?_⟩ <;> simp [initialJobItem]
  · simp only [runPipeline, tailFromGenerate]
    split_ifs <;> simp_all
  · intro hp
    simp [runPipeline, tailFromGenerate, hp]
    split_ifs <;> exact ⟨_, rfl⟩

/-- Witness for C5: with exactly the screener failing (runComprehend true),
the trace is PARSE then DetectPII and the ledger row is untouched, not
FAILED; with runComprehend true and nothing failing the screener precedes
GENERATE. -/
theorem C5_comprehend_branch_witness :
    ((runPipeline true (fun t => decide (t = .comprehend)) ⟨"d", "p", "t"⟩
        "rep" "err" initialJobItem).trace = [.parse, .comprehend] ∧
      (runPipeline true (fun t => decide (t = .comprehend)) ⟨"d", "p", "t"⟩
        "rep" "err" initialJobItem).ledger = initialJobItem ∧
      (runPipeline true (fun t => decide (t = .comprehend)) ⟨"d", "p", "t"⟩
        "rep" "err" initialJobItem).ledger.status ≠ "FAILED") ∧
    (∃ rest, (runPipeline true (fun _ => false) ⟨"d", "p", "t"⟩
        "rep" "err" initialJobItem).trace =
      .parse :: .comprehend :: .generate :: rest) :=
  ⟨(C5_comprehend_branch (fun t => decide (t = .comprehend)) ⟨"d", "p", "t"⟩
      "rep" "err").2.1 (by decide) (by decide),
   (C5_comprehend_branch (fun _ => false) ⟨"d", "p", "t"⟩ "rep" "err").1 rfl rfl⟩

/-- Claim C9 evaluated on the code (the claim is contradicted): the DOCX
packer's output depends on the render-time clock.  `zipfile` stamps the
MS-DOS encoding of `time.localtime()` into every archive entry's headers,
so rendering the same draft at 12:00:00 and at 12:00:02 yields different
archives (hence different bytes), while the document content itself is
clock-independent for every draft and any two times.  The model honors the
2-second DOS resolution: renders at 12:00:00 and 12:00:01 encode the same
timestamp word and the archives coincide, and in general equal archives
force equal DOS date and time words. -/
theorem C9_render_embeds_clock :
    build_docx_entries sampleResume ⟨2024, 5, 1, 12, 0, 0⟩ ≠
      build_docx_entries sampleResume ⟨2024, 5, 1, 12, 0, 2⟩ ∧
    (∀ d : ResumeData, ∀ t1 t2 : DateTime6,
      (build_docx_entries d t1).map ZipEntry.content =
        (build_docx_entries d t2).map ZipEntry.content) ∧
    build_docx_entries sampleResume ⟨2024, 5, 1, 12, 0, 0⟩ =
      build_docx_entries sampleResume ⟨2024, 5, 1, 12, 0, 1⟩ ∧
    (∀ d : ResumeData, ∀ t1 t2 : DateTime6,
      build_docx_entries d t1 = build_docx_entries d t2 →
        (dosDateOf t1 = dosDateOf t2 ∧ dosTimeOf t1 = dosTimeOf t2)) := by
  refine ⟨?_, ?_, ?_, ?_⟩
  · intro h
    have h2 := congrArg (fun l => l.map ZipEntry.dosTime) h
    simp [build_docx_entries] at h2
    exact absurd h2 (by decide)
  · intro d t1 t2
    simp [build_docx_entries]
  · have hts : dosTimeOf ⟨2024, 5, 1, 12, 0, 0⟩ = dosTimeOf ⟨2024, 5, 1, 12, 0, 1⟩ := by
      decide
    have hds : dosDateOf ⟨2024, 5, 1, 12, 0, 0⟩ = dosDateOf ⟨2024, 5, 1, 12, 0, 1⟩ := by
      decide
    simp only [build_docx_entries, hts, hds]
  · intro d t1 t2 h
    have hd := congrArg (fun l => l.map ZipEntry.dosDate) h
    have ht := congrArg (fun l => l.map ZipEntry.dosTime) h
    simp [build_docx_entries] at hd ht
    exact ⟨hd, ht⟩

/-- Counterexample to claim C7 as stated: for a concrete valid submission
the endpoint's response body is the pair jobId/executionArn — it contains
no "status" key at all, so it is not the claimed body with
status = "RUNNING" (the RUNNING status lives only in the ledger row). -/
theorem C7_submit_response_shape_counterexample :
    (workflow_handler (fun _ => S3Result.ok "jdtext") "job-1" "2026-01-01T00:00:00Z"
        "arn-1" (some ⟨some "t1", some "r1", none, some "Senior engineer",
          none, none, none⟩)).response.body
      = [("jobId", "job-1"), ("executionArn", "arn-1")] ∧
    List.lookup "status"
      (workflow_handler (fun _ => S3Result.ok "jdtext") "job-1" "2026-01-01T00:00:00Z"
        "arn-1" (some ⟨some "t1", some "r1", none, some "Senior engineer",
          none, none, none⟩)).response.body = none := by
  exact ⟨rfl, rfl⟩

/-- Claim C7 (amended): for every valid job submission — tenantId and
resumeKey present, and a job description available either inline
(non-empty `jobDescription`) or by reference (the inline text absent or
empty, a non-empty `jobDescriptionKey`, and the store returning non-empty
text for it, `workflow_handler/app.py` lines 53-59) — the submission
endpoint returns HTTP 202 with body containing jobId and executionArn
immediately — asynchronous acceptance that starts the execution without
waiting for pipeline completion — and the ledger row it creates for
(tenantId, jobId) has status RUNNING. -/
theorem C7_submit_asynchronous_amended (s3get : String → S3Result)
    (freshId now arn : String) (b : SubmitBody) (tenant resumeKey : String)
    (ht : b.tenantId = some tenant) (hr : b.resumeKey = some resumeKey)
    (hjd : (∃ jd, b.jobDescription = some jd ∧ jd ≠ "") ∨
      (pyTruthy b.jobDescription = false ∧
       ∃ k t, b.jobDescriptionKey = some k ∧ k ≠ "" ∧
         s3get k = S3Result.ok t ∧ t ≠ "")) :
    ∃ row : JobRow,
      (workflow_handler s3get freshId now arn (some b)).putItem = some row ∧
      row.status = "RUNNING" ∧
      row.tenantId = tenant ∧
      row.pk = "TENANT#" ++ tenant ∧
      row.sk = "JOB#" ++ row.jobId ∧
      (workflow_handler s3get freshId now arn (some b)).response.statusCode = 202 ∧
      (workflow_handler s3get freshId now arn (some b)).response.body =
        [("jobId", row.jobId), ("executionArn", arn)] ∧
      (workflow_handler s3get freshId now arn (some b)).executionStarted = true := by
  rcases hjd with ⟨jd, hj, hne⟩ | ⟨hfalse, k, t, hk, hkne, hs3, htne⟩
  · have htr : pyTruthy b.jobDescription = true := by
      rw [hj]
      simp [pyTruthy, hne]
    simp only [workflow_handler, ht, hr, htr, if_pos]
    exact ⟨_, rfl, rfl, rfl, rfl, rfl, trivial, rfl, trivial⟩
  · have hfk : pyTruthy b.jobDescriptionKey = true := by
      rw [hk]
      simp [pyTruthy, hkne]
    have hgetD : b.jobDescriptionKey.getD "" = k := by
      rw [hk]
      rfl
    have htt : pyTruthy (some t) = true := by
      simp [pyTruthy, htne]
    simp only [workflow_handler, ht, hr, hfalse, hfk, hgetD, hs3, htt,
      Bool.false_eq_true, if_false, if_pos]
    exact ⟨_, rfl, rfl, rfl, rfl, rfl, trivial, rfl, trivial⟩

/-- Witness for C7 (amended) at a concrete submission that supplies the job
description by reference: the store resolves the key to non-empty text. -/
theorem C7_submit_asynchronous_amended_witness :
    ∃ row : JobRow,
      (workflow_handler (fun _ => S3Result.ok "desc text") "f" "n" "a"
        (some ⟨some "t", some "r", some "jd-key", none, none, none, none⟩)).putItem
        = some row ∧
      row.status = "RUNNING" ∧
      row.tenantId = "t" ∧
      row.pk = "TENANT#" ++ "t" ∧
      row.sk = "JOB#" ++ row.jobId ∧
      (workflow_handler (fun _ => S3Result.ok "desc text") "f" "n" "a"
        (some ⟨some "t", some "r", some "jd-key", none, none, none, none⟩)).response.statusCode
        = 202 ∧
      (workflow_handler (fun _ => S3Result.ok "desc text") "f" "n" "a"
        (some ⟨some "t", some "r", some "jd-key", none, none, none, none⟩)).response.body
        = [("jobId", row.jobId), ("executionArn", "a")] ∧
      (workflow_handler (fun _ => S3Result.ok "desc text") "f" "n" "a"
        (some ⟨some "t", some "r", some "jd-key", none, none, none, none⟩)).executionStarted
        = true :=
  C7_submit_asynchronous_amended (fun _ => S3Result.ok "desc text") "f" "n" "a"
    ⟨some "t", some "r", some "jd-key", none, none, none, none⟩ "t" "r"
    rfl rfl
    (Or.inr ⟨rfl, "jd-key", "desc text", rfl, by decide, rfl, by decide⟩)

end ResumePipeline
